import Mathlib

/-!
Verification of the restaurant hospitality-group enrichment pipeline
(`hosp_group_matching.py`).  The Python source is shallowly embedded:
strings are lists of characters (`Str`), the Python string operations used
by the script (`strip`, `lower`, `split('\n')`, `replace`, `startswith`,
substring containment) are defined below with Python semantics, network
calls are abstracted as oracle outcomes (HTTP status plus body, or a raised
exception), and the pandas dataframe is a list of records.  Each theorem at
the end of the file settles one claim about the pipeline.
-/

namespace HospGroup

/-- Strings, as lists of characters (Python `str`). -/
abbrev Str := List Char

/-- Shorthand turning a Lean string literal into a `Str`. -/
def str (s : String) : Str := s.data

/-- Python whitespace, the set stripped by `str.strip()` and matched by
regex `\s` (ASCII range): space, tab, newline, carriage return, vertical
tab, form feed. -/
def isPyWs (c : Char) : Bool :=
  c == ' ' || c == '\t' || c == '\n' || c == '\r' || c == '\x0B' || c == '\x0C'

/-- Python `s.strip()`: remove whitespace from both ends. -/
def pyStrip (s : Str) : Str :=
  ((s.dropWhile isPyWs).reverse.dropWhile isPyWs).reverse

/-- Python `s.lower()` (ASCII case fold, all characters in play are ASCII). -/
def pyLower (s : Str) : Str := s.map Char.toLower

/-- Python `s.startswith(pre)`. -/
def pyStartsWith (pre s : Str) : Bool := pre.isPrefixOf s

/-- Python `pat in s`: contiguous-substring containment (`"" in s` is true). -/
def containsSub (pat : Str) : Str → Bool
  | [] => pat.isPrefixOf []
  | c :: rest => pat.isPrefixOf (c :: rest) || containsSub pat rest

/-- Fuelled worker for `replaceAll`.  Scans left to right; on an occurrence
of `pat` it skips the occurrence (deleting it) and continues after it,
exactly like Python `s.replace(pat, "")`. -/
def replAllAux (pat : Str) : Nat → Str → Str
  | 0, s => s
  | fuel + 1, s =>
    match s with
    | [] => []
    | c :: rest =>
      if pat ≠ [] ∧ pat.isPrefixOf (c :: rest) = true then
        replAllAux pat fuel ((c :: rest).drop pat.length)
      else
        c :: replAllAux pat fuel rest

/-- Python `s.replace(pat, "")`. -/
def replaceAll (pat s : Str) : Str := replAllAux pat s.length s

/-- Python `s.split('\n')`. -/
def splitOnNl : Str → List Str
  | [] => [[]]
  | c :: rest =>
    if c = '\n' then [] :: splitOnNl rest
    else
      match splitOnNl rest with
      | [] => [[c]]
      | l :: ls => (c :: l) :: ls

/-- The literal label `"Group Name:"` (source line 96). -/
def gLabel : Str := str "Group Name:"

/-- The literal label `"Total Locations:"` (source line 100). -/
def tLabel : Str := str "Total Locations:"

/-- Markdown cleanup applied to an extracted field (source lines 99, 102):
`.replace("**", "").replace("*", "").strip()`. -/
def stripMarkup (s : Str) : Str :=
  pyStrip (replaceAll (str "*") (replaceAll (str "**") s))

/-- Field extraction for a matched label line (source lines 97-99 and
101-102): `line.replace(label, "").strip()` followed by markup cleanup. -/
def extractField (label line : Str) : Str :=
  stripMarkup (pyStrip (replaceAll label line))

/-- One iteration of the parsing loop over response lines (source lines
94-102).  The accumulator is the `(group_name, total_locations)` pair. -/
def parseLine (acc : Str × Str) (rawLine : Str) : Str × Str :=
  let line := pyStrip rawLine
  if pyStartsWith gLabel line then
    (extractField gLabel line, acc.2)
  else if pyStartsWith tLabel line then
    (acc.1, extractField tLabel line)
  else
    acc

/-- The primary resolver's response parser (source lines 90-109): loop over
lines starting from `("Unknown", "Unknown")`, then the natural-language
fallback `if group_name == "Unknown" and "independent" in answer.lower()`. -/
def parseAnswer (answer : Str) : Str × Str :=
  let p := (splitOnNl answer).foldl parseLine (str "Unknown", str "Unknown")
  if p.1 == str "Unknown" && containsSub (str "independent") (pyLower answer) then
    (str "Independent", str "1")
  else
    p

/-- Outcome of the primary (Perplexity) HTTP call: either an exception was
raised somewhere in the `try` block, or a response with a status code and a
message-content body came back. -/
inductive ApiOutcome where
  | exn (msg : Str)
  | http (status : Nat) (content : Str)
deriving DecidableEq

/-- Result of `search_hospitality_group`, together with whether a network
call was issued. -/
structure CallResult where
  result : Str × Str
  networkCall : Bool
deriving DecidableEq

/-- `search_hospitality_group` (source lines 27-116).  The query
construction only feeds the network call, which is abstracted by the
outcome oracle; everything that determines the return value is kept:
missing key short-circuit (lines 39-40), the 200 branch parsing
`content.strip()` (lines 86-109), the non-200 branch (lines 110-112) and
the exception handler (lines 114-116). -/
def searchHospitalityGroup (apiKey : Str) (oc : ApiOutcome) : CallResult :=
  if apiKey = [] then
    ⟨(str "ERROR: No API key", []), false⟩
  else
    match oc with
    | .exn m => ⟨(str "ERROR: " ++ m, []), true⟩
    | .http status content =>
      if status = 200 then ⟨parseAnswer (pyStrip content), true⟩
      else ⟨(str "ERROR: " ++ (Nat.repr status).data, []), true⟩

/-! ## Regex engine for the verifier's fallback patterns

`verify_with_serper` uses `re.findall` with two fixed patterns (source
lines 251-254).  The engine below implements Python's backtracking
semantics for the constructs those patterns use: literal alternation,
character classes, greedy one-or-more of a class, concatenation, and one
capture group.  `reMatches` lists the possible (remaining input, captured
group) pairs in Python's backtracking priority order, so its head is the
match Python produces. -/

/-- Regular-expression abstract syntax, restricted to the constructs of the
two source patterns. -/
inductive RE where
  | lit (s : Str)
  | cls (f : Char → Bool)
  | plus (f : Char → Bool)
  | seq (a b : RE)
  | alt (a b : RE)
  | grp (r : RE)

/-- Concatenation-map over lists. -/
def concatMap (f : α → List β) : List α → List β
  | [] => []
  | x :: xs => f x ++ concatMap f xs

/-- All ways a regex can match a prefix of `s`, as (rest of input,
captured group) pairs, highest backtracking priority first. -/
def reMatches : RE → Str → List (Str × Option Str)
  | .lit p, s => if p.isPrefixOf s then [(s.drop p.length, none)] else []
  | .cls f, s =>
    match s with
    | [] => []
    | c :: rest => if f c then [(rest, none)] else []
  | .plus f, s =>
    let n := (s.takeWhile f).length
    (List.range n).map (fun i => (s.drop (n - i), none))
  | .seq a b, s =>
    concatMap
      (fun pr =>
        (reMatches b pr.1).map (fun pr2 =>
          (pr2.1, match pr.2 with | some c => some c | none => pr2.2)))
      (reMatches a s)
  | .alt a b, s => reMatches a s ++ reMatches b s
  | .grp r, s =>
    (reMatches r s).map (fun pr => (pr.1, some (s.take (s.length - pr.1.length))))

/-- Fuelled worker for `reFindAll`: scan left to right, at each position
take the highest-priority match, record its capture, continue after it
(Python `re.findall`). -/
def reFindAllAux (r : RE) : Nat → Str → List Str
  | 0, _ => []
  | fuel + 1, s =>
    match reMatches r s with
    | (rest, cap) :: _ =>
      let consumed := s.length - rest.length
      (match cap with | some c => c | none => []) ::
        reFindAllAux r fuel (if consumed = 0 then s.drop 1 else rest)
    | [] =>
      match s with
      | [] => []
      | _ :: rest => reFindAllAux r fuel rest

/-- Python `re.findall(pattern, s)` returning the capture-group values. -/
def reFindAll (r : RE) (s : Str) : List Str := reFindAllAux r (s.length + 1) s

/-- Regex class `[A-Z]`. -/
def isUpperAZ (c : Char) : Bool := decide ('A' ≤ c) && decide (c ≤ 'Z')

/-- Regex class `[A-Za-z\s&]`. -/
def isNameChar (c : Char) : Bool :=
  (decide ('A' ≤ c) && decide (c ≤ 'Z')) ||
  (decide ('a' ≤ c) && decide (c ≤ 'z')) ||
  isPyWs c || c == '&'

/-- Left-nested alternation of a non-empty list of alternatives (first
alternative has highest priority, as in Python). -/
def altOf : List RE → RE
  | [] => .lit []
  | [r] => r
  | r :: rs => .alt r (altOf rs)

/-- Source pattern (line 252):
`(?:owned by|part of|operates|managed by)\s+([A-Z][A-Za-z\s&]+(?:Group|Hospitality|Restaurant|Management|Collection|Dining|Company|LLC|Inc))`. -/
def pattern1 : RE :=
  .seq (altOf [.lit (str "owned by"), .lit (str "part of"),
               .lit (str "operates"), .lit (str "managed by")])
    (.seq (.plus isPyWs)
      (.grp (.seq (.cls isUpperAZ)
        (.seq (.plus isNameChar)
          (altOf [.lit (str "Group"), .lit (str "Hospitality"),
                  .lit (str "Restaurant"), .lit (str "Management"),
                  .lit (str "Collection"), .lit (str "Dining"),
                  .lit (str "Company"), .lit (str "LLC"), .lit (str "Inc")])))))

/-- Source pattern (line 253):
`([A-Z][A-Za-z\s&]+(?:Group|Hospitality|Restaurant|Management|Collection|Dining))\s+(?:owns|operates|manages)`. -/
def pattern2 : RE :=
  .seq (.grp (.seq (.cls isUpperAZ)
      (.seq (.plus isNameChar)
        (altOf [.lit (str "Group"), .lit (str "Hospitality"),
                .lit (str "Restaurant"), .lit (str "Management"),
                .lit (str "Collection"), .lit (str "Dining")]))))
    (.seq (.plus isPyWs)
      (altOf [.lit (str "owns"), .lit (str "operates"), .lit (str "manages")]))

/-! ## The secondary verifier (`verify_with_serper`) -/

/-- One entry of the Serper `organic` results list. -/
structure OrganicItem where
  title : Str
  snippet : Str
deriving DecidableEq

/-- Parsed body of a Serper search response: organic results plus the
optional knowledge-graph panel (title, description). -/
structure SerperResult where
  organic : List OrganicItem
  knowledgeGraph : Option (Str × Str)
deriving DecidableEq

/-- Outcome of the Serper search HTTP call. -/
inductive SerperOutcome where
  | exn (msg : Str)
  | http (status : Nat) (result : SerperResult)
deriving DecidableEq

/-- Outcome of the inner Perplexity analysis HTTP call (inside the nested
`try` of `verify_with_serper`). -/
inductive AnalysisOutcome where
  | exn (msg : Str)
  | http (status : Nat) (content : Str)
deriving DecidableEq

/-- Snippet collection (source lines 157-172): up to 8 organic results
contribute `f"{title}. {snippet}"` when one of the two is non-empty, then
the knowledge-graph text `f"{title} {description}".strip()` if non-empty. -/
def collectSnippets (res : SerperResult) : List Str :=
  let organicSnips := (res.organic.take 8).filterMap (fun item =>
    if item.title ≠ [] ∨ item.snippet ≠ [] then
      some (item.title ++ str ". " ++ item.snippet)
    else none)
  match res.knowledgeGraph with
  | some kg =>
    let kgText := pyStrip (kg.1 ++ ' ' :: kg.2)
    if kgText ≠ [] then organicSnips ++ [kgText] else organicSnips
  | none => organicSnips

/-- The group-indicator keyword list (source lines 240-244). -/
def groupIndicators : List Str :=
  [str "restaurant group", str "hospitality group", str "restaurant collection",
   str "parent company", str "owned by", str "operates", str "portfolio",
   str "management company", str "dining group", str "restaurant family"]

/-- The heuristic pattern-matching fallback of `verify_with_serper`
(source lines 236-267): lowercase the joined snippets, require a group
indicator and the restaurant name, then try the two regexes on the
original-case joined snippets. -/
def heuristicFallback (restaurantName : Str) (snippets : List Str) : Str × Str :=
  let allText := pyLower (List.intercalate (str " ") snippets)
  let hasGroupIndicator := groupIndicators.any (fun ind => containsSub ind allText)
  if hasGroupIndicator && containsSub (pyLower restaurantName) allText then
    let joined := List.intercalate (str " ") snippets
    match reFindAll pattern1 joined with
    | m :: _ => (pyStrip m, str "Unknown")
    | [] =>
      match reFindAll pattern2 joined with
      | m :: _ => (pyStrip m, str "Unknown")
      | [] => (str "Part of Restaurant Group (verify manually)", str "Unknown")
  else
    (str "Independent", str "1")

/-- The analysis-response parser inside `verify_with_serper` (source lines
218-231): the same line loop as the primary parser but defaulting to
`("Independent", "1")` and with no natural-language fallback. -/
def parseAnalysis (answer : Str) : Str × Str :=
  (splitOnNl answer).foldl parseLine (str "Independent", str "1")

/-- `verify_with_serper` (source lines 119-271).  Missing key → immediate
`("Independent", "1")` (lines 131-132); exception in the outer `try` →
`("Independent", "1")` (lines 269-271); non-200 search status →
`("Independent", "1")` (lines 152-153); otherwise collect snippets, and if
snippets were found and the Perplexity key is present run the inner
analysis call: a 200 response is parsed and returned (lines 214-231), a
non-200 response falls through, and an exception is caught by the inner
handler (lines 233-234) and falls through; all fall-through paths end in
the heuristic fallback (lines 236-267). -/
def verifyWithSerper (serperKey pkey restaurantName : Str)
    (searchOc : SerperOutcome) (analysisOc : AnalysisOutcome) : Str × Str :=
  if serperKey = [] then (str "Independent", str "1")
  else
    match searchOc with
    | .exn _ => (str "Independent", str "1")
    | .http status res =>
      if status ≠ 200 then (str "Independent", str "1")
      else
        let snippets := collectSnippets res
        if snippets ≠ [] ∧ pkey ≠ [] then
          match analysisOc with
          | .http astatus content =>
            if astatus = 200 then parseAnalysis (pyStrip content)
            else heuristicFallback restaurantName snippets
          | .exn _ => heuristicFallback restaurantName snippets
        else heuristicFallback restaurantName snippets

/-! ## The batch runner (`process_restaurants` and `main`) -/

/-- One dataframe row.  `process_restaurants` adds the three annotation
columns with value `""` when missing (source lines 286-291), so a record
always carries them; an empty string stands for an empty/NaN cell.  The
location and domain columns only feed the query text of the abstracted
network calls and are omitted. -/
structure Record where
  companyName : Str
  hospitalityGroup : Str
  totalLocations : Str
  verified : Str
deriving DecidableEq

/-- The network outcomes a single row can consume: the primary Perplexity
call, the Serper search call and the inner analysis call. -/
structure Oracles where
  primary : ApiOutcome
  serperSearch : SerperOutcome
  serperAnalysis : AnalysisOutcome
deriving DecidableEq

/-- The skip condition of the batch loop (source lines 302-306):
`pd.notna(hg) and hg and pd.notna(v) and v == "Yes"`, i.e. the
`Hospitality Group` cell is non-empty and the `Verified` cell equals the
string `"Yes"` exactly. -/
def skipCheck (r : Record) : Bool :=
  !(r.hospitalityGroup == ([] : Str)) && (r.verified == str "Yes")

/-- The per-row body of the batch loop (source lines 302-341): skip check;
primary search and write-back of its pair; then either the Serper
verification branch (group found / confirmed independent), the
group-identified branch, or the no-Serper-key branch.  The boolean records
whether any network call was issued for the row. -/
def processRecord (serperKey pkey : Str) (oc : Oracles) (r : Record) :
    Record × Bool :=
  if skipCheck r then (r, false)
  else
    let call := searchHospitalityGroup pkey oc.primary
    let hg := call.result.1
    let tl := call.result.2
    let r1 : Record := { r with hospitalityGroup := hg, totalLocations := tl }
    if hg = str "Independent" ∧ serperKey ≠ [] then
      let v := verifyWithSerper serperKey pkey r1.companyName
        oc.serperSearch oc.serperAnalysis
      if v.1 ≠ str "Independent" then
        ({ r1 with hospitalityGroup := v.1, totalLocations := v.2,
                   verified := str "Yes - Group Found" }, true)
      else
        ({ r1 with verified := str "Yes - Confirmed Independent" }, true)
    else if hg ≠ str "Independent" then
      ({ r1 with verified := str "Yes - Group Identified" }, call.networkCall)
    else
      ({ r1 with verified := str "No - Serper Not Available" }, call.networkCall)

/-- The record a row holds after the loop body ran on it. -/
def handle (serperKey pkey : Str) (p : Record × Oracles) : Record :=
  (processRecord serperKey pkey p.2 p.1).1

/-- `k` iterations of the batch loop (source lines 297-348).  State:
already-handled prefix, remaining rows (each paired with the network
outcomes its calls would see), and the last table written to the output
file (`none` if no write happened yet).  A skipped row triggers `continue`
before the write (line 308); a processed row is followed by
`df.to_csv(output_file)`, serialising the whole current table (lines
343-344). -/
def runSteps (serperKey pkey : Str) :
    Nat → List Record → List (Record × Oracles) → Option (List Record) →
    List Record × List (Record × Oracles) × Option (List Record)
  | 0, done, rest, per => (done, rest, per)
  | _ + 1, done, [], per => (done, [], per)
  | k + 1, done, (r, oc) :: rs, per =>
    if skipCheck r then
      runSteps serperKey pkey k (done ++ [r]) rs per
    else
      let r1 := (processRecord serperKey pkey oc r).1
      runSteps serperKey pkey k (done ++ [r1]) rs
        (some (done ++ [r1] ++ rs.map Prod.fst))

/-- `INPUT_CSV` (source line 17). -/
def INPUT_CSV : Str := str "signed_restaurants_test.csv"

/-- `OUTPUT_CSV` (source line 18). -/
def OUTPUT_CSV : Str := str "restaurants_with_hospitality_groups.csv"

/-- The table a (re)started run operates on: `main` calls
`process_restaurants(INPUT_CSV, OUTPUT_CSV)` (line 406) and
`process_restaurants` reads its `input_file` argument (line 283), so the
run always loads `INPUT_CSV`.  The filesystem is a map from path to
table contents. -/
def restartTable (fs : Str → Option (List Record)) : Option (List Record) :=
  fs INPUT_CSV

/-- The summary statistics printed after the loop (source lines 353-366). -/
structure Summary where
  total : Nat
  independent : Nat
  groups : Nat
  errors : Nat
  verified : Nat
  pctIndependent : ℚ
  pctGroups : ℚ
  pctVerified : ℚ
deriving DecidableEq

/-- The summary block (source lines 353-368).  The counts mirror the four
dataframe filters; the three percentage prints divide by `total`, which
raises `ZeroDivisionError` when the table has no rows — modelled by the
`Except` error branch. -/
def summarize (table : List Record) : Except Str Summary :=
  let total := table.length
  let independent :=
    (table.filter (fun r => r.hospitalityGroup == str "Independent")).length
  let groups :=
    (table.filter (fun r =>
      !(r.hospitalityGroup == str "Independent") &&
      !(r.hospitalityGroup == ([] : Str)) &&
      !(containsSub (str "ERROR") r.hospitalityGroup))).length
  let errors :=
    (table.filter (fun r => containsSub (str "ERROR") r.hospitalityGroup)).length
  let verified :=
    (table.filter (fun r => containsSub (str "Yes") r.verified)).length
  if total = 0 then
    Except.error (str "ZeroDivisionError: division by zero")
  else
    Except.ok
      { total := total, independent := independent, groups := groups,
        errors := errors, verified := verified,
        pctIndependent := (independent : ℚ) / (total : ℚ) * 100,
        pctGroups := (groups : ℚ) / (total : ℚ) * 100,
        pctVerified := (verified : ℚ) / (total : ℚ) * 100 }

/-- `process_restaurants` over a whole table: run the loop to completion,
then the summary block.  The `Except` propagates the only way the function
terminates abnormally. -/
def processRestaurants (serperKey pkey : Str) (rows : List (Record × Oracles)) :
    Except Str (List Record × Summary) :=
  let finalTable := (runSteps serperKey pkey rows.length [] rows none).1
  match summarize finalTable with
  | .error e => .error e
  | .ok s => .ok (finalTable, s)

/-! ## Spec-modelled parser variant -/

/-- Text before the first period or newline. -/
def takeUntilStop (s : Str) : Str :=
  s.takeWhile (fun c => !(c == '.') && !(c == '\n'))

/-- Modelled from the spec: the primary-resolver parser variant carrying
the "secondary fallback" of spec section 4.1 step 4, which is present in an
earlier top-level script of the repository but not in the script under
`src/` (whose parser, `parseAnswer`, stops after the independent fallback).
Per the spec: "if raw answer text exceeds 100 characters and no structured
format matched, and it does not contain 'independent', truncate to text
before the first period or newline as a best-effort group name". -/
def parseAnswerVariant (answer : Str) : Str × Str :=
  let p := parseAnswer answer
  if p.1 = str "Unknown" ∧ 100 < answer.length ∧
      containsSub (str "independent") (pyLower answer) = false then
    (takeUntilStop answer, p.2)
  else
    p

/-! ## Concrete inputs used by the claim theorems -/

/-- A record exactly as the script itself leaves it after confirming
independence: non-empty group and a `Verified` tag starting with `"Yes"`. -/
def c1Record : Record :=
  ⟨str "joes cafe", str "Independent", str "1", str "Yes - Confirmed Independent"⟩

/-- A primary-call failure outcome for re-processing `c1Record`. -/
def c1Oracles : Oracles := ⟨.http 500 [], .http 200 ⟨[], none⟩, .exn []⟩

/-- A row as it sits in the input file: no annotations yet. -/
def c2OrigRow : Record := ⟨str "mission bistro", [], [], []⟩

/-- The same row as persisted to the output file by a prior (crashed)
run. -/
def c2AnnRow : Record :=
  ⟨str "mission bistro", str "Independent", str "1", str "Yes - Confirmed Independent"⟩

/-- Filesystem after a prior run crashed having processed row 0: the
original input file is untouched, the output file holds the annotated
table. -/
def c2Fs : Str → Option (List Record) := fun p =>
  if p = INPUT_CSV then some [c2OrigRow]
  else if p = OUTPUT_CSV then some [c2AnnRow]
  else none

/-- Network outcomes for the re-processing of `c2OrigRow`. -/
def c2Oracles : Oracles :=
  ⟨.http 200 (str "Group Name: Independent\nTotal Locations: 1"),
   .http 200 ⟨[], none⟩, .exn []⟩

/-- A two-row table for the durability witness: the first row gets
processed (a structured group answer), the second is still pending. -/
def c3Rows : List (Record × Oracles) :=
  [(⟨str "alpha", [], [], []⟩,
    ⟨.http 200 (str "Group Name: Foo Group\nTotal Locations: 3"),
     .http 200 ⟨[], none⟩, .exn []⟩),
   (⟨str "beta", [], [], []⟩,
    ⟨.exn (str "t"), .http 200 ⟨[], none⟩, .exn []⟩)]

/-- A fresh record for the `C4` runs. -/
def c4Record : Record := ⟨str "joes cafe", [], [], []⟩

/-- Outcomes where the primary pass answers `Independent` with an
`Unknown` location count and the verifier finds nothing (empty organic
results), so it confirms independence. -/
def c4Oracles : Oracles :=
  ⟨.http 200 (str "Group Name: Independent\nTotal Locations: Unknown"),
   .http 200 ⟨[], none⟩, .exn []⟩

/-- Same scenario but with the primary pass returning location count
`"1"`, for the witness of the amended claim. -/
def c4wOracles : Oracles :=
  ⟨.http 200 (str "Group Name: Independent\nTotal Locations: 1"),
   .http 200 ⟨[], none⟩, .exn []⟩

/-- A 111-character answer with no structured line, no period before the
tail, and no occurrence of "independent". -/
def c9Answer : Str :=
  str "aaaaaaaaaaaaaaaaaaaaaaaaaaaaaaaaaaaaaaaaaaaaaaaaaaaaaaaaaaaaaaaaaaaaaaaaaaaaaaaaaaaaaaaaaaaaaaaaaaaaaaaaaaaa. tail"

/-! ## Lemmas about the string primitives -/

lemma pyStartsWith_append_self (p s : Str) : pyStartsWith p (p ++ s) = true := by
  induction p with
  | nil => simp [pyStartsWith, List.isPrefixOf]
  | cons c cs ih =>
    simp only [pyStartsWith, List.cons_append, List.isPrefixOf, beq_self_eq_true,
      Bool.true_and] at ih ⊢
    exact ih

lemma replAllAux_nil (pat : Str) (f : Nat) : replAllAux pat f [] = [] := by
  cases f <;> rfl

lemma replAllAux_fuel (pat : Str) :
    ∀ f₁ f₂ s, s.length ≤ f₁ → s.length ≤ f₂ →
      replAllAux pat f₁ s = replAllAux pat f₂ s := by
  intro f₁
  induction f₁ with
  | zero =>
    intro f₂ s h1 _
    have hs : s = [] := List.eq_nil_of_length_eq_zero (Nat.le_zero.mp h1)
    subst hs
    rw [replAllAux_nil, replAllAux_nil]
  | succ f ih =>
    intro f₂ s h1 h2
    cases s with
    | nil => rw [replAllAux_nil, replAllAux_nil]
    | cons c rest =>
      cases f₂ with
      | zero => simp at h2
      | succ f₂' =>
        simp only [replAllAux]
        split
        · next hcond =>
          have hp : 1 ≤ pat.length := List.length_pos.mpr hcond.1
          apply ih
          · simp only [List.length_drop, List.length_cons]
            simp only [List.length_cons] at h1
            omega
          · simp only [List.length_drop, List.length_cons]
            simp only [List.length_cons] at h2
            omega
        · next =>
          have := ih f₂' rest
            (by simp only [List.length_cons] at h1; omega)
            (by simp only [List.length_cons] at h2; omega)
          rw [this]

lemma replaceAll_eq_fuel (pat s : Str) (f : Nat) (h : s.length ≤ f) :
    replaceAll pat s = replAllAux pat f s :=
  replAllAux_fuel pat s.length f s le_rfl h

lemma replAllAux_not_contains (pat : Str) :
    ∀ f s, containsSub pat s = false → replAllAux pat f s = s := by
  intro f
  induction f with
  | zero => intro s _; rfl
  | succ f ih =>
    intro s hc
    cases s with
    | nil => rfl
    | cons c rest =>
      simp only [containsSub, Bool.or_eq_false_iff] at hc
      simp only [replAllAux]
      rw [if_neg (fun hcond => by rw [hc.1] at hcond; exact Bool.false_ne_true hcond.2)]
      rw [ih rest hc.2]

lemma replaceAll_not_contains (pat s : Str) (h : containsSub pat s = false) :
    replaceAll pat s = s :=
  replAllAux_not_contains pat s.length s h

lemma replaceAll_append_self (label g : Str) (hne : label ≠ []) :
    replaceAll label (label ++ g) = replaceAll label g := by
  cases label with
  | nil => exact absurd rfl hne
  | cons c pt =>
    have hlen : ((c :: pt) ++ g).length = (pt ++ g).length + 1 := by
      simp [List.length_cons]
    rw [replaceAll, hlen]
    simp only [List.cons_append, replAllAux]
    rw [if_pos ⟨hne, by
      have h := pyStartsWith_append_self (c :: pt) g
      simp only [pyStartsWith, List.cons_append] at h
      exact h⟩]
    have hdrop : ((c :: pt) ++ g).drop (c :: pt).length = g := List.drop_left _ _
    simp only [List.cons_append] at hdrop
    rw [hdrop]
    exact replAllAux_fuel (c :: pt) (pt ++ g).length g.length g
      (by simp [List.length_append]) le_rfl

/-! ## Lemmas about the line parser -/

lemma gLabel_not_prefix (l : Str) : pyStartsWith gLabel (tLabel ++ l) = false := by
  have h1 : gLabel = 'G' :: str "roup Name:" := rfl
  have h2 : tLabel = 'T' :: str "otal Locations:" := rfl
  rw [h1, h2]
  simp [pyStartsWith, List.cons_append, List.isPrefixOf]

lemma parseLine_other (acc : Str × Str) (x : Str)
    (h1 : pyStartsWith gLabel (pyStrip x) = false)
    (h2 : pyStartsWith tLabel (pyStrip x) = false) :
    parseLine acc x = acc := by
  simp [parseLine, h1, h2]

lemma parseLine_group (acc : Str × Str) (x g : Str)
    (hx : pyStrip x = gLabel ++ g) (hg : containsSub gLabel g = false) :
    parseLine acc x = (stripMarkup (pyStrip g), acc.2) := by
  simp only [parseLine, hx, pyStartsWith_append_self, if_true, extractField]
  rw [replaceAll_append_self _ _ (by decide), replaceAll_not_contains _ _ hg]

lemma parseLine_total (acc : Str × Str) (x l : Str)
    (hx : pyStrip x = tLabel ++ l) (hl : containsSub tLabel l = false) :
    parseLine acc x = (acc.1, stripMarkup (pyStrip l)) := by
  simp only [parseLine, hx, gLabel_not_prefix, pyStartsWith_append_self,
    Bool.false_eq_true, if_false, if_true, extractField]
  rw [replaceAll_append_self _ _ (by decide), replaceAll_not_contains _ _ hl]

lemma foldl_parseLine_const (xs : List Str) (acc : Str × Str)
    (h : ∀ x ∈ xs, pyStartsWith gLabel (pyStrip x) = false ∧
      pyStartsWith tLabel (pyStrip x) = false) :
    xs.foldl parseLine acc = acc := by
  induction xs generalizing acc with
  | nil => rfl
  | cons x xs ih =>
    rw [List.foldl_cons, parseLine_other acc x (h x (by simp)).1 (h x (by simp)).2]
    exact ih acc (fun y hy => h y (by simp [hy]))

lemma foldl_parseLine_fst (xs : List Str) (acc : Str × Str)
    (h : ∀ x ∈ xs, pyStartsWith gLabel (pyStrip x) = false) :
    (xs.foldl parseLine acc).1 = acc.1 := by
  induction xs generalizing acc with
  | nil => rfl
  | cons x xs ih =>
    rw [List.foldl_cons, ih _ (fun y hy => h y (by simp [hy]))]
    by_cases ht : pyStartsWith tLabel (pyStrip x) = true
    · simp [parseLine, h x (by simp), ht]
    · simp [parseLine, h x (by simp), ht]

/-! ## Lemmas about the batch loop -/

lemma processRecord_skip (sk pk : Str) (oc : Oracles) (r : Record)
    (h : skipCheck r = true) : processRecord sk pk oc r = (r, false) := by
  simp [processRecord, h]

lemma handle_skip (sk pk : Str) (p : Record × Oracles)
    (h : skipCheck p.1 = true) : handle sk pk p = p.1 := by
  simp [handle, processRecord_skip sk pk p.2 p.1 h]

lemma map_handle_all_skip (sk pk : Str) (l : List (Record × Oracles))
    (h : ∀ p ∈ l, skipCheck p.1 = true) :
    l.map (handle sk pk) = l.map Prod.fst := by
  induction l with
  | nil => rfl
  | cons p ps ih =>
    rw [List.map_cons, List.map_cons, handle_skip sk pk p (h p (by simp)),
      ih (fun q hq => h q (by simp [hq]))]

lemma runSteps_spec (sk pk : Str) :
    ∀ (k : Nat) (rest : List (Record × Oracles)) (done : List Record)
      (per : Option (List Record)),
      (runSteps sk pk k done rest per).1 =
        done ++ (rest.take k).map (handle sk pk) ∧
      (runSteps sk pk k done rest per).2.1 = rest.drop k ∧
      ((∀ p ∈ rest.take k, skipCheck p.1 = true) →
        (runSteps sk pk k done rest per).2.2 = per) ∧
      ((∃ p ∈ rest.take k, skipCheck p.1 = false) →
        (runSteps sk pk k done rest per).2.2 =
          some (done ++ (rest.take k).map (handle sk pk) ++
            (rest.drop k).map Prod.fst)) := by
  intro k
  induction k with
  | zero =>
    intro rest done per
    simp [runSteps]
  | succ k ih =>
    intro rest done per
    cases rest with
    | nil => simp [runSteps]
    | cons p rs =>
      obtain ⟨r, oc⟩ := p
      by_cases hs : skipCheck r = true
      · have hrun : runSteps sk pk (k + 1) done ((r, oc) :: rs) per =
            runSteps sk pk k (done ++ [r]) rs per := by
          simp [runSteps, hs]
        obtain ⟨ih1, ih2, ih3, ih4⟩ := ih rs (done ++ [r]) per
        refine ⟨?_, ?_, ?_, ?_⟩
        · rw [hrun, ih1]
          simp [List.take_succ_cons, handle_skip sk pk (r, oc) hs]
        · rw [hrun, ih2]
          simp [List.drop_succ_cons]
        · intro hall
          rw [hrun]
          exact ih3 (fun q hq =>
            hall q (by simp only [List.take_succ_cons]; exact List.mem_cons_of_mem _ hq))
        · rintro ⟨q, hq, hqs⟩
          rw [hrun]
          simp only [List.take_succ_cons] at hq
          rcases List.mem_cons.mp hq with hq' | hq'
          · rw [hq'] at hqs
            rw [hs] at hqs
            exact absurd hqs (by simp)
          · rw [ih4 ⟨q, hq', hqs⟩]
            simp [List.take_succ_cons, List.drop_succ_cons,
              handle_skip sk pk (r, oc) hs]
      · have hs' : skipCheck r = false := by
          revert hs; cases skipCheck r <;> simp
        have hrun : runSteps sk pk (k + 1) done ((r, oc) :: rs) per =
            runSteps sk pk k (done ++ [(processRecord sk pk oc r).1]) rs
              (some (done ++ [(processRecord sk pk oc r).1] ++ rs.map Prod.fst)) := by
          simp [runSteps, hs']
        have hhandle : handle sk pk (r, oc) = (processRecord sk pk oc r).1 := rfl
        obtain ⟨ih1, ih2, ih3, ih4⟩ := ih rs (done ++ [(processRecord sk pk oc r).1])
          (some (done ++ [(processRecord sk pk oc r).1] ++ rs.map Prod.fst))
        refine ⟨?_, ?_, ?_, ?_⟩
        · rw [hrun, ih1]
          simp [List.take_succ_cons, hhandle]
        · rw [hrun, ih2]
          simp [List.drop_succ_cons]
        · intro hall
          exact absurd (hall (r, oc) (by simp [List.take_succ_cons])) (by simp [hs'])
        · intro _
          rw [hrun]
          by_cases hex : ∃ q ∈ rs.take k, skipCheck q.1 = false
          · rw [ih4 hex]
            simp [List.take_succ_cons, List.drop_succ_cons, hhandle]
          · have hall : ∀ q ∈ rs.take k, skipCheck q.1 = true := by
              intro q hq
              by_contra hqq
              exact hex ⟨q, hq, by revert hqq; cases skipCheck q.1 <;> simp⟩
            rw [ih3 hall]
            have hmap : (rs.take k).map (handle sk pk) = (rs.take k).map Prod.fst :=
              map_handle_all_skip sk pk _ hall
            have hsplit : rs.map Prod.fst =
                (rs.take k).map Prod.fst ++ (rs.drop k).map Prod.fst := by
              rw [← List.map_append, List.take_append_drop]
            rw [hsplit]
            simp [List.take_succ_cons, List.drop_succ_cons, hhandle, hmap]

/-! ## Claim theorems -/

/-- C5: The primary resolver never raises: with no API credential it
returns `("ERROR: No API key", "")` immediately without a network call; on
a non-success HTTP status it returns `("ERROR: <status code>", "")`; on any
transport/parse exception it returns `("ERROR: <exception text>", "")` —
always a sentinel pair (the embedding is a total function, so no exception
can propagate). -/
theorem C5_primary_resolver_sentinels (apiKey : Str) (oc : ApiOutcome) :
    (apiKey = [] →
      searchHospitalityGroup apiKey oc = ⟨(str "ERROR: No API key", []), false⟩) ∧
    (apiKey ≠ [] → ∀ st content, oc = .http st content → st ≠ 200 →
      searchHospitalityGroup apiKey oc =
        ⟨(str "ERROR: " ++ (Nat.repr st).data, []), true⟩) ∧
    (apiKey ≠ [] → ∀ m, oc = .exn m →
      searchHospitalityGroup apiKey oc = ⟨(str "ERROR: " ++ m, []), true⟩) := by
  refine ⟨fun h => by simp [searchHospitalityGroup, h],
    fun h st content hoc hst => ?_, fun h m hoc => ?_⟩
  · subst hoc
    simp [searchHospitalityGroup, h, hst]
  · subst hoc
    simp [searchHospitalityGroup, h]

/-- Witness for C5 at concrete inputs: missing key, HTTP 503, and an
exception message. -/
theorem C5_witness :
    searchHospitalityGroup [] (.http 200 []) =
      ⟨(str "ERROR: No API key", []), false⟩ ∧
    searchHospitalityGroup (str "key") (.http 503 []) =
      ⟨(str "ERROR: " ++ (Nat.repr 503).data, []), true⟩ ∧
    searchHospitalityGroup (str "key") (.exn (str "timeout")) =
      ⟨(str "ERROR: " ++ str "timeout", []), true⟩ :=
  ⟨(C5_primary_resolver_sentinels [] (.http 200 [])).1 rfl,
   (C5_primary_resolver_sentinels (str "key") (.http 503 [])).2.1
     (by decide) 503 [] rfl (by decide),
   (C5_primary_resolver_sentinels (str "key") (.exn (str "timeout"))).2.2
     (by decide) (str "timeout") rfl⟩

/-- C7: For an input text containing a line starting with `"Group Name:"`
and a line starting with `"Total Locations:"` (no other line carrying
either label, the labels not recurring inside the trailing texts, and the
extracted group not being the fallback-triggering value `"Unknown"`), the
parser returns the trailing text of those lines with `*` emphasis
characters stripped (and surrounding whitespace trimmed, as the source's
`.strip()` calls do). -/
theorem C7_parser_round_trip (answer : Str) (pre mid post : List Str)
    (gl ll g l : Str)
    (hsplit : splitOnNl answer = pre ++ gl :: (mid ++ ll :: post))
    (hpre : ∀ x ∈ pre, pyStartsWith gLabel (pyStrip x) = false ∧
      pyStartsWith tLabel (pyStrip x) = false)
    (hmid : ∀ x ∈ mid, pyStartsWith gLabel (pyStrip x) = false ∧
      pyStartsWith tLabel (pyStrip x) = false)
    (hpost : ∀ x ∈ post, pyStartsWith gLabel (pyStrip x) = false ∧
      pyStartsWith tLabel (pyStrip x) = false)
    (hgl : pyStrip gl = gLabel ++ g) (hgc : containsSub gLabel g = false)
    (hll : pyStrip ll = tLabel ++ l) (hlc : containsSub tLabel l = false)
    (hunk : stripMarkup (pyStrip g) ≠ str "Unknown") :
    parseAnswer answer = (stripMarkup (pyStrip g), stripMarkup (pyStrip l)) := by
  have hfold : (splitOnNl answer).foldl parseLine (str "Unknown", str "Unknown") =
      (stripMarkup (pyStrip g), stripMarkup (pyStrip l)) := by
    rw [hsplit, List.foldl_append, foldl_parseLine_const pre _ hpre,
      List.foldl_cons, parseLine_group _ gl g hgl hgc, List.foldl_append,
      foldl_parseLine_const mid _ hmid, List.foldl_cons,
      parseLine_total _ ll l hll hlc, foldl_parseLine_const post _ hpost]
  simp [parseAnswer, hfold, hunk]

/-- Witness for C7: the spec's round-trip example
`"Group Name: Union Square Hospitality Group\nTotal Locations: 25"` parses
to `("Union Square Hospitality Group", "25")`. -/
theorem C7_witness :
    parseAnswer
        (str "Group Name: Union Square Hospitality Group\nTotal Locations: 25") =
      (str "Union Square Hospitality Group", str "25") := by
  have h := C7_parser_round_trip
    (str "Group Name: Union Square Hospitality Group\nTotal Locations: 25")
    [] [] [] (str "Group Name: Union Square Hospitality Group")
    (str "Total Locations: 25")
    (str " Union Square Hospitality Group") (str " 25")
    (by decide) (by decide) (by decide) (by decide)
    (by decide) (by decide) (by decide) (by decide) (by decide)
  rw [h]
  decide

/-- C8: For every input text in which no line starts (after stripping)
with `"Group Name:"` and whose lowercased full text contains
`"independent"`, the parser returns `("Independent", "1")`. -/
theorem C8_independent_fallback (answer : Str)
    (hno : ∀ x ∈ splitOnNl answer, pyStartsWith gLabel (pyStrip x) = false)
    (hind : containsSub (str "independent") (pyLower answer) = true) :
    parseAnswer answer = (str "Independent", str "1") := by
  have h1 : ((splitOnNl answer).foldl parseLine (str "Unknown", str "Unknown")).1 =
      str "Unknown" :=
    foldl_parseLine_fst _ _ hno
  simp [parseAnswer, h1, hind]

/-- Witness for C8: the spec's example sentence. -/
theorem C8_witness :
    parseAnswer (str "This restaurant appears to be independent.") =
      (str "Independent", str "1") :=
  C8_independent_fallback (str "This restaurant appears to be independent.")
    (by decide) (by decide)

/-- C9 (spec-modelled): in the primary-resolver parser variant, a raw
answer longer than 100 characters that matched no structured label line
and does not contain "independent" yields the text before the first
period or newline as the group name (instead of the `"Unknown"`
default). -/
theorem C9_long_answer_truncation (answer : Str)
    (hno : ∀ x ∈ splitOnNl answer, pyStartsWith gLabel (pyStrip x) = false ∧
      pyStartsWith tLabel (pyStrip x) = false)
    (hind : containsSub (str "independent") (pyLower answer) = false)
    (hlen : 100 < answer.length) :
    parseAnswerVariant answer = (takeUntilStop answer, str "Unknown") := by
  have hfold : (splitOnNl answer).foldl parseLine (str "Unknown", str "Unknown") =
      (str "Unknown", str "Unknown") :=
    foldl_parseLine_const _ _ hno
  simp [parseAnswerVariant, parseAnswer, hfold, hind, hlen]

/-- Witness for C9: a 111-character unstructured answer. -/
theorem C9_witness :
    parseAnswerVariant c9Answer = (takeUntilStop c9Answer, str "Unknown") :=
  C9_long_answer_truncation c9Answer (by decide) (by decide) (by decide)

/-- C1 (code bug): `c1Record` has a non-empty `hospitality_group` and a
`verified` value starting with `"Yes"` — exactly what the script itself
writes — yet the skip check fails (it compares `verified == "Yes"`
exactly), so re-running the batch issues a network call for the record and
overwrites its annotation fields. -/
theorem C1_yes_tagged_record_reprocessed :
    pyStartsWith (str "Yes") c1Record.verified = true ∧
    c1Record.hospitalityGroup ≠ [] ∧
    skipCheck c1Record = false ∧
    processRecord (str "s") (str "p") c1Oracles c1Record =
      (⟨str "joes cafe", str "ERROR: 500", [], str "Yes - Group Identified"⟩, true) ∧
    (processRecord (str "s") (str "p") c1Oracles c1Record).1 ≠ c1Record := by
  decide

/-- C2 (code bug): after a crash, the restarted run reads `INPUT_CSV`
(line 283 via line 406), which is a different path from `OUTPUT_CSV` where
the annotations were persisted, so the restarted table is the original
unannotated one and row 0 is re-processed with a network call; moreover
even the annotated row would fail the skip check, since its tag
`"Yes - Confirmed Independent"` is not equal to `"Yes"`. -/
theorem C2_restart_rereads_original_input :
    INPUT_CSV ≠ OUTPUT_CSV ∧
    restartTable c2Fs = some [c2OrigRow] ∧
    c2Fs OUTPUT_CSV = some [c2AnnRow] ∧
    restartTable c2Fs ≠ c2Fs OUTPUT_CSV ∧
    skipCheck c2OrigRow = false ∧
    skipCheck c2AnnRow = false ∧
    (processRecord (str "s") (str "p") c2Oracles c2OrigRow).2 = true := by
  decide

/-- C3: interrupting the batch after `k` loop iterations, the handled
prefix is exactly the per-row images of the first `k` rows, the rest is
untouched, and — provided some row among the first `k` was actually
processed (a skipped row triggers `continue` before the write) — the last
persisted output is the entire table: the `k` handled rows followed by the
remaining rows in their pre-processing state. -/
theorem C3_full_table_persisted_each_row (sk pk : Str)
    (rows : List (Record × Oracles)) (k : Nat)
    (hproc : ∃ p ∈ rows.take k, skipCheck p.1 = false) :
    (runSteps sk pk k [] rows none).1 = (rows.take k).map (handle sk pk) ∧
    (runSteps sk pk k [] rows none).2.1 = rows.drop k ∧
    (runSteps sk pk k [] rows none).2.2 =
      some ((rows.take k).map (handle sk pk) ++ (rows.drop k).map Prod.fst) := by
  obtain ⟨h1, h2, _, h4⟩ := runSteps_spec sk pk k rows [] none
  refine ⟨by simpa using h1, h2, by simpa using h4 hproc⟩

/-- Witness for C3: a two-row table interrupted after the first row was
processed. -/
theorem C3_witness :
    (runSteps (str "s") (str "p") 1 [] c3Rows none).2.2 =
      some ((c3Rows.take 1).map (handle (str "s") (str "p")) ++
        (c3Rows.drop 1).map Prod.fst) :=
  (C3_full_table_persisted_each_row (str "s") (str "p") c3Rows 1 (by decide)).2.2

/-- Counterexample to C4: the primary pass answers
`("Independent", "Unknown")`, the verifier confirms independence, the
terminal tag `"Yes - Confirmed Independent"` is set — and
`total_locations` stays `"Unknown"`, not `"1"`: the confirmed-independent
branch never rewrites `Total Locations`. -/
theorem C4_counterexample :
    processRecord (str "s") (str "p") c4Oracles c4Record =
      (⟨str "joes cafe", str "Independent", str "Unknown",
        str "Yes - Confirmed Independent"⟩, true) ∧
    pyStartsWith (str "Yes")
      (processRecord (str "s") (str "p") c4Oracles c4Record).1.verified = true ∧
    (processRecord (str "s") (str "p") c4Oracles c4Record).1.hospitalityGroup =
      str "Independent" ∧
    (processRecord (str "s") (str "p") c4Oracles c4Record).1.totalLocations ≠
      str "1" := by
  decide

/-- C4 as amended: once a `"Yes"` verification tag is set,
`hospitality_group = "Independent"` implies `total_locations` equals the
value the primary pass returned (the code performs no cross-field
normalisation, so it is `"1"` exactly when the primary pass said `"1"`). -/
theorem C4_amended_locations_from_primary (sk pk : Str) (oc : Oracles)
    (r : Record) (hskip : skipCheck r = false)
    (hyes : pyStartsWith (str "Yes")
      ((processRecord sk pk oc r).1).verified = true)
    (hind : ((processRecord sk pk oc r).1).hospitalityGroup = str "Independent") :
    ((processRecord sk pk oc r).1).totalLocations =
      (searchHospitalityGroup pk oc.primary).result.2 ∧
    ((searchHospitalityGroup pk oc.primary).result.2 = str "1" →
      ((processRecord sk pk oc r).1).totalLocations = str "1") := by
  by_cases h1 : (searchHospitalityGroup pk oc.primary).result.1 =
      str "Independent" ∧ sk ≠ []
  · by_cases h2 : (verifyWithSerper sk pk r.companyName oc.serperSearch
        oc.serperAnalysis).1 = str "Independent"
    · have hr : (processRecord sk pk oc r).1 =
          { r with hospitalityGroup := str "Independent",
                   totalLocations := (searchHospitalityGroup pk oc.primary).result.2,
                   verified := str "Yes - Confirmed Independent" } := by
        simp [processRecord, hskip, h1, h2]
      rw [hr]
      exact ⟨rfl, fun h => h⟩
    · have hr : (processRecord sk pk oc r).1.hospitalityGroup =
          (verifyWithSerper sk pk r.companyName oc.serperSearch
            oc.serperAnalysis).1 := by
        simp [processRecord, hskip, h1, h2]
      rw [hr] at hind
      exact absurd hind h2
  · by_cases h3 : (searchHospitalityGroup pk oc.primary).result.1 =
        str "Independent"
    · have hsk : sk = [] := by
        by_contra hne
        exact h1 ⟨h3, hne⟩
      have hr : (processRecord sk pk oc r).1.verified =
          str "No - Serper Not Available" := by
        simp [processRecord, hskip, h3, hsk]
      rw [hr] at hyes
      exact absurd hyes (by decide)
    · have hr : (processRecord sk pk oc r).1.hospitalityGroup =
          (searchHospitalityGroup pk oc.primary).result.1 := by
        simp [processRecord, hskip, h1, h3]
      rw [hr] at hind
      exact absurd hind h3

/-- Witness for C4 as amended: primary pass returns
`("Independent", "1")`, the verifier confirms, and the stored
`total_locations` is the primary value `"1"`. -/
theorem C4_witness :
    (processRecord (str "s") (str "p") c4wOracles c4Record).1.totalLocations =
      (searchHospitalityGroup (str "p") c4wOracles.primary).result.2 ∧
    ((searchHospitalityGroup (str "p") c4wOracles.primary).result.2 = str "1" →
      (processRecord (str "s") (str "p") c4wOracles c4Record).1.totalLocations =
        str "1") :=
  C4_amended_locations_from_primary (str "s") (str "p") c4wOracles c4Record
    (by decide) (by decide) (by decide)

/-- Counterexample to C6: with both credentials present, a successful
search and an exception raised inside the component (in the inner
synthesis call), the verifier does not return `("Independent", "1")`: the
inner handler catches the exception and falls through to the heuristic,
which here returns the manual-verification sentinel. -/
theorem C6_counterexample :
    verifyWithSerper (str "s") (str "p") (str "cafe x")
        (.http 200 ⟨[⟨[], str "cafe x is part of a restaurant group"⟩], none⟩)
        (.exn (str "boom")) =
      (str "Part of Restaurant Group (verify manually)", str "Unknown") ∧
    verifyWithSerper (str "s") (str "p") (str "cafe x")
        (.http 200 ⟨[⟨[], str "cafe x is part of a restaurant group"⟩], none⟩)
        (.exn (str "boom")) ≠
      (str "Independent", str "1") := by
  decide

/-- C6 as amended: the verifier fails open to `("Independent", "1")` when
the secondary credential is absent, when the search call raises, or when
the search returns a non-success status; an exception in the inner
synthesis call is caught but falls through to the local heuristic (which
may return a group result) rather than returning `("Independent", "1")`;
no exception ever escapes (the embedding is total), so the batch is never
aborted. -/
theorem C6_amended_fail_open (sk pk name : Str) (searchOc : SerperOutcome)
    (analysisOc : AnalysisOutcome) :
    (sk = [] → verifyWithSerper sk pk name searchOc analysisOc =
      (str "Independent", str "1")) ∧
    (∀ m, searchOc = .exn m → verifyWithSerper sk pk name searchOc analysisOc =
      (str "Independent", str "1")) ∧
    (∀ st res, searchOc = .http st res → st ≠ 200 →
      verifyWithSerper sk pk name searchOc analysisOc =
        (str "Independent", str "1")) ∧
    (∀ res m, sk ≠ [] → searchOc = .http 200 res → analysisOc = .exn m →
      verifyWithSerper sk pk name searchOc analysisOc =
        heuristicFallback name (collectSnippets res)) := by
  refine ⟨fun h => by simp [verifyWithSerper, h], fun m hm => ?_,
    fun st res hoc hst => ?_, fun res m hsk hoc ha => ?_⟩
  · subst hm
    by_cases h : sk = [] <;> simp [verifyWithSerper, h]
  · subst hoc
    by_cases h : sk = [] <;> simp [verifyWithSerper, h, hst]
  · subst hoc
    subst ha
    simp [verifyWithSerper, hsk, ite_self]

/-- Witness for C6 as amended, covering all four scenarios at concrete
inputs. -/
theorem C6_witness :
    verifyWithSerper [] (str "p") (str "n") (.http 200 ⟨[], none⟩) (.exn []) =
      (str "Independent", str "1") ∧
    verifyWithSerper (str "s") (str "p") (str "n") (.exn (str "t")) (.exn []) =
      (str "Independent", str "1") ∧
    verifyWithSerper (str "s") (str "p") (str "n") (.http 500 ⟨[], none⟩)
        (.exn []) = (str "Independent", str "1") ∧
    verifyWithSerper (str "s") (str "p") (str "n") (.http 200 ⟨[], none⟩)
        (.exn []) = heuristicFallback (str "n") (collectSnippets ⟨[], none⟩) :=
  ⟨(C6_amended_fail_open [] (str "p") (str "n") (.http 200 ⟨[], none⟩)
      (.exn [])).1 rfl,
   (C6_amended_fail_open (str "s") (str "p") (str "n") (.exn (str "t"))
      (.exn [])).2.1 (str "t") rfl,
   (C6_amended_fail_open (str "s") (str "p") (str "n") (.http 500 ⟨[], none⟩)
      (.exn [])).2.2.1 500 ⟨[], none⟩ rfl (by decide),
   (C6_amended_fail_open (str "s") (str "p") (str "n") (.http 200 ⟨[], none⟩)
      (.exn [])).2.2.2 ⟨[], none⟩ [] (by decide) rfl rfl⟩

/-- C10 (code bug): on a zero-row dataset the loop completes, but the
summary block divides the counts by `total = 0`
(`independent/total*100`, source line 364), raising `ZeroDivisionError`,
so the process terminates abnormally instead of printing the summary. -/
theorem C10_zero_rows_division_error :
    processRestaurants (str "s") (str "p") [] =
      Except.error (str "ZeroDivisionError: division by zero") := by
  rfl

end HospGroup
